import Mathlib

/-!
Verification of the godar aircraft monitor against its specification.

The Go source is shallowly embedded:
* float64 values that only ever hold finitely-representable inputs are
  modelled as rationals (`ℚ`); the transcendental haversine math is
  modelled over `ℝ`.
* `time.Time` / `time.Duration` are modelled as integers (seconds).
* Go maps keyed by strings are modelled as association lists.
* the HTTP server consumed by the fetch layer is modelled as a script:
  a list of login outcomes and a list of poll responses, consumed in
  order, one element per request.
-/

namespace Godar

/-! ## Tracking engine (package monitor)

Source: `pkg/monitor` — `AircraftTracker`, `shouldNotifyAircraft`,
`cleanupAircraftHistory`, `getAircraftIdentifier`, `processAircraft`,
`fetchAndProcess`, `calculateDistance`.
-/

/-- `monitor.AircraftTracker`: distance in km (float64 → ℚ),
LastSeen a timestamp in seconds (time.Time → ℤ). -/
structure AircraftTracker where
  LastDistance : ℚ
  LastSeen : ℤ
  Notified : Bool
deriving DecidableEq

/-- The notification-relevant part of `config.Config` read by the monitor:
`Notification.Enabled`, `Notification.NotifyOnCloserOnly`,
`Notification.ReNotifyAfter` (a duration in seconds, 0 = unset). -/
structure NotificationConfig where
  Enabled : Bool
  NotifyOnCloserOnly : Bool
  ReNotifyAfter : ℤ
deriving DecidableEq

/-- `config.LocationConfig`: observer latitude/longitude (degrees) and
max distance, all float64 → ℚ. -/
structure LocationConfig where
  Latitude : ℚ
  Longitude : ℚ
  MaxDistance : ℚ
deriving DecidableEq

/-- The `aircraftHistory` map (`map[string]*AircraftTracker`) as an
association list. -/
abbrev History := List (String × AircraftTracker)

/-- Go map read `m.aircraftHistory[aircraftID]`. -/
def History.lookup : History → String → Option AircraftTracker
  | [], _ => none
  | (k, t) :: rest, id => if k = id then some t else History.lookup rest id

/-- Go map write `m.aircraftHistory[aircraftID] = t` (covers both insert
and the in-place mutation of an existing tracker through its pointer). -/
def History.set : History → String → AircraftTracker → History
  | [], id, t => [(id, t)]
  | (k, t0) :: rest, id, t =>
      if k = id then (k, t) :: rest else (k, t0) :: History.set rest id t

/-- The fields of `aircraft.Aircraft` read by the monitor.  The Go field
`Type` is rendered `Typ` (`Type` is a Lean keyword); `Alt` feet (int),
`Spd` knots and `Lat`/`Long` degrees (float64 → ℚ). -/
structure Aircraft where
  Icao : String
  Call : String
  Typ : String
  Alt : ℤ
  Spd : ℚ
  Lat : ℚ
  Long : ℚ
  Mil : Bool
deriving DecidableEq

/-- `Monitor.getAircraftIdentifier`: ICAO, else callsign, else
`fmt.Sprintf("%s_%d", ac.Type, ac.Alt)`. -/
def getAircraftIdentifier (ac : Aircraft) : String :=
  if ac.Icao ≠ "" then ac.Icao
  else if ac.Call ≠ "" then ac.Call
  else ac.Typ ++ "_" ++ toString ac.Alt

/-- `Monitor.shouldNotifyAircraft`.  Returns the decision and the updated
history.  Mirrors the Go body: absent tracker → insert
`{currentDistance, now, true}` and return true; present tracker →
compute `isGettingCloser` and `shouldNotifyByTime` from the *previous*
tracker values, update `LastDistance`/`LastSeen` unconditionally, set
`Notified := true` exactly on the notify paths. -/
def shouldNotifyAircraft (cfg : NotificationConfig) (hist : History)
    (aircraftID : String) (currentDistance : ℚ) (now : ℤ) : Bool × History :=
  match hist.lookup aircraftID with
  | none =>
      (true, hist.set aircraftID ⟨currentDistance, now, true⟩)
  | some tracker =>
      let isGettingCloser := currentDistance < tracker.LastDistance
      let shouldNotifyByTime :=
        0 < cfg.ReNotifyAfter ∧ cfg.ReNotifyAfter < now - tracker.LastSeen
      if cfg.NotifyOnCloserOnly then
        if isGettingCloser ∨ shouldNotifyByTime then
          (true, hist.set aircraftID ⟨currentDistance, now, true⟩)
        else
          (false, hist.set aircraftID ⟨currentDistance, now, tracker.Notified⟩)
      else
        (true, hist.set aircraftID ⟨currentDistance, now, true⟩)

/-- `Monitor.cleanupAircraftHistory`: delete every tracker with
`tracker.LastSeen.Before(now.Add(-15 * time.Minute))`. -/
def cleanupAircraftHistory (hist : History) (now : ℤ) : History :=
  hist.filter fun e => ! decide (e.2.LastSeen < now - 15 * 60)

/-- `Monitor.calculateDistance`: returns 0 when the configured observer
location is exactly (0,0), otherwise defers to `geo.CalculateDistance`.
The geo function's float64 result enters the monitor through the
parameter `distFn` (the monitor depends on geo only through this call). -/
def monitorCalculateDistance (loc : LocationConfig)
    (distFn : ℚ → ℚ → ℚ → ℚ → ℚ) (acLat acLong : ℚ) : ℚ :=
  if loc.Latitude = 0 ∧ loc.Longitude = 0 then 0
  else distFn loc.Latitude loc.Longitude acLat acLong

/-- `Monitor.processAircraft`: compute distance, resolve the identifier,
run the notify decision (which also updates the tracker), and — only if
notifications are globally enabled and the decision was positive — call
the Notifier, whose failure (modelled by `notifySucceeds ac = false`)
is returned as this aircraft's error.  Result: updated history and the
per-aircraft error, if any. -/
def processAircraft (cfg : NotificationConfig) (loc : LocationConfig)
    (distFn : ℚ → ℚ → ℚ → ℚ → ℚ) (notifySucceeds : Aircraft → Bool)
    (hist : History) (now : ℤ) (ac : Aircraft) : History × Option String :=
  let distance := monitorCalculateDistance loc distFn ac.Lat ac.Long
  let aircraftID := getAircraftIdentifier ac
  let r := shouldNotifyAircraft cfg hist aircraftID distance now
  if cfg.Enabled ∧ r.1 = true then
    if notifySucceeds ac then (r.2, none)
    else (r.2, some "failed to send notification")
  else (r.2, none)

/-- `Monitor.fetchAndProcess`: a fetch error aborts the cycle before any
aircraft is touched; otherwise every aircraft in the batch is processed
in order, a per-aircraft error being logged (dropped) rather than
stopping the loop. -/
def fetchAndProcess (cfg : NotificationConfig) (loc : LocationConfig)
    (distFn : ℚ → ℚ → ℚ → ℚ → ℚ) (notifySucceeds : Aircraft → Bool)
    (fetchResult : Except String (List Aircraft)) (hist : History)
    (now : ℤ) : History × Option String :=
  match fetchResult with
  | .error e => (hist, some ("failed to fetch aircraft data: " ++ e))
  | .ok acs =>
      (acs.foldl
        (fun h ac => (processAircraft cfg loc distFn notifySucceeds h now ac).1)
        hist, none)

/-- Invariant of the history map: every tracker has `Notified = true`. -/
def AllNotified (hist : History) : Prop :=
  ∀ e ∈ hist, (Prod.snd e).Notified = true

instance (hist : History) : Decidable (AllNotified hist) := by
  unfold AllNotified; infer_instance

/-! ## Geo utility, exact part (package geo)

`BearingToDirection` only uses arithmetic that is exact on every binary
float (fmod, division by 22.5, round, integer conversion), so it is
embedded over ℚ.  Go's `math.Mod` truncates toward zero and keeps the
sign of the dividend; `math.Round` rounds half away from zero. -/

/-- Truncation toward zero, as used by `math.Mod`. -/
def goTrunc (q : ℚ) : ℤ :=
  if 0 ≤ q then ⌊q⌋ else -⌊-q⌋

/-- `math.Mod x y` for `y > 0` (the only use here is `y = 360`):
`x - y * trunc(x / y)`, result carrying the sign of `x`. -/
def goFmod (x y : ℚ) : ℚ :=
  x - y * goTrunc (x / y)

/-- `math.Round`: round to nearest, half away from zero. -/
def goRound (x : ℚ) : ℤ :=
  if 0 ≤ x then ⌊x + 1/2⌋ else -⌊-x + 1/2⌋

/-- The `directions` table of `geo.BearingToDirection`. -/
def directionsList : List String :=
  ["N", "NNE", "NE", "ENE",
   "E", "ESE", "SE", "SSE",
   "S", "SSW", "SW", "WSW",
   "W", "WNW", "NW", "NNW"]

/-- The normalization step of `geo.BearingToDirection`:
`bearing = math.Mod(bearing, 360); if bearing < 0 { bearing += 360 }`. -/
def normalizeBearing (bearing : ℚ) : ℚ :=
  let b0 := goFmod bearing 360
  if b0 < 0 then b0 + 360 else b0

/-- `geo.BearingToDirection`: normalize, then
`index := int(math.Round(bearing/22.5)) % 16` (22.5 = 45/2) and look up
the table. -/
def BearingToDirection (bearing : ℚ) : String :=
  let index := goRound (normalizeBearing bearing / (45/2)) % 16
  directionsList.getD index.toNat "N"

/-! ## Polymorphic JSON decoding (package aircraft)

`SqkValue.UnmarshalJSON` first tries to unmarshal the raw JSON value as
a string, then as a number.  A JSON value is modelled by its shape:
`jstr` (a JSON string), `jint` (a JSON number with integral value —
what `json.Unmarshal` into a Go `int` accepts), and `jother` for every
other shape (fails both unmarshal attempts). -/

inductive Jval where
  | jstr : String → Jval
  | jint : ℤ → Jval
  | jother : Jval
deriving DecidableEq

/-- Decimal digit run for `strconv.Atoi`: nonempty, all digits. -/
def parseDigits : List Char → Option ℕ
  | [] => none
  | l =>
    if l.all (fun c => c.isDigit) then
      some (l.foldl (fun acc c => acc * 10 + (c.toNat - 48)) 0)
    else none

/-- `strconv.Atoi`: optional single leading sign, then decimal digits.
(Overflow of the platform int is not modelled; the inputs of interest
are 4-digit squawk codes.) -/
def Atoi (s : String) : Option ℤ :=
  match s.data with
  | '+' :: rest => (parseDigits rest).map fun n => (n : ℤ)
  | '-' :: rest => (parseDigits rest).map fun n => -(n : ℤ)
  | l => (parseDigits l).map fun n => (n : ℤ)

/-- `SqkValue.UnmarshalJSON`: string shape first (empty string → 0,
otherwise `strconv.Atoi`), then number shape, else a decode error. -/
def sqkUnmarshalJSON (data : Jval) : Except String ℤ :=
  match data with
  | .jstr s =>
      if s = "" then .ok 0
      else
        match Atoi s with
        | some n => .ok n
        | none => .error "strconv.Atoi: parsing: invalid syntax"
  | .jint n => .ok n
  | .jother => .error "json: cannot unmarshal value into Go value of type int"

/-! ## Feed client (package fetch)

`Fetcher.Fetch` is embedded against a scripted server: a list of login
outcomes (one consumed per `login()` call — the aggregate of the four
auth strategies tried inside it) and a list of poll responses (one
consumed per request to the data URL).  The decoded aircraft list is
abstracted to a tag `ℕ`; its content plays no role in the control flow
the claims are about. -/

/-- The filter/auth state of `fetch.Fetcher` (float64 → ℚ, int → ℤ). -/
structure Fetcher where
  AircraftType : String
  MinAltitude : ℤ
  MaxAltitude : ℤ
  Military : Bool
  Operator : String
  FlightNumber : String
  UserLat : ℚ
  UserLong : ℚ
  MaxDistance : ℚ
  Username : String
  Password : String
  sessionCookie : String
  authMethod : String
deriving DecidableEq

/-- A query-parameter value: the string, int and float shapes that
`q.Set` receives (`strconv.Itoa` / `strconv.FormatFloat` keep the
numeric value; we keep it unformatted). -/
inductive QVal where
  | s : String → QVal
  | i : ℤ → QVal
  | q : ℚ → QVal
deriving DecidableEq

/-- The query parameters set by `Fetcher.Fetch` (fetch.go lines
296-338), in source order: each filter only when non-default, lat/lng
only when `UserLat != 0.0 && UserLong != 0.0`, `fDstU` additionally
requiring `MaxDistance > 0`, and the url-auth credentials when that
auth method is in force. -/
def buildQuery (f : Fetcher) : List (String × QVal) :=
  (if f.AircraftType ≠ "" then [("fTypQ", QVal.s f.AircraftType)] else []) ++
  (if 0 < f.MinAltitude then [("fAltL", QVal.i f.MinAltitude)] else []) ++
  (if 0 < f.MaxAltitude then [("fAltU", QVal.i f.MaxAltitude)] else []) ++
  (if f.Military then [("fMilQ", QVal.s "1")] else []) ++
  (if f.Operator ≠ "" then [("fOpQ", QVal.s f.Operator)] else []) ++
  (if f.FlightNumber ≠ "" then [("fCallQ", QVal.s f.FlightNumber)] else []) ++
  (if f.UserLat ≠ 0 ∧ f.UserLong ≠ 0 then
    [("lat", QVal.q f.UserLat), ("lng", QVal.q f.UserLong)] ++
    (if 0 < f.MaxDistance then [("fDstU", QVal.q f.MaxDistance)] else [])
  else []) ++
  (if f.authMethod = "url" then
    [("username", QVal.s f.Username), ("password", QVal.s f.Password)]
  else [])

/-- Aggregate outcome of one `Fetcher.login()` call: the first of the
four strategies that validated (with the captured cookie when the
form-based one did), or none of them. -/
inductive LoginOutcome where
  | success : String → String → LoginOutcome
  | failure : LoginOutcome
deriving DecidableEq

/-- `Fetcher.login`: rejects immediately unless both credentials are
non-empty, otherwise consumes the next scripted outcome. -/
def loginGo (f : Fetcher) (logins : List LoginOutcome) :
    Except String Fetcher × List LoginOutcome :=
  if f.Username = "" ∨ f.Password = "" then
    (.error "username and password required for login", logins)
  else
    match logins with
    | [] => (.error "all authentication methods failed", [])
    | .success m c :: rest =>
        (.ok { f with authMethod := m, sessionCookie := c }, rest)
    | .failure :: rest => (.error "all authentication methods failed", rest)

deriving instance DecidableEq for Except

/-- One scripted response to the poll request: a transport error from
`client.Do`, or a response with status, Location header, Content-Type,
and the decode outcome for the body. -/
inductive PollResp where
  | transportErr : String → PollResp
  | resp : ℤ → String → String → Except String ℕ → PollResp
deriving DecidableEq

/-- Character-list match at the head (helper for `strContains`). -/
def headMatch : List Char → List Char → Bool
  | [], _ => true
  | _ :: _, [] => false
  | c :: cs, d :: ds => c = d && headMatch cs ds

/-- Does `sub` occur starting at some position of the second list? -/
def containsAux (sub : List Char) : List Char → Bool
  | [] => headMatch sub []
  | c :: cs => headMatch sub (c :: cs) || containsAux sub cs

/-- `strings.Contains s sub`. -/
def strContains (s sub : String) : Bool :=
  containsAux sub.data s.data

/-- The content-type acceptance test of `Fetcher.Fetch` (fetch.go line
425): non-empty and equal to, or starting with, `application/json`. -/
def jsonContentType (ct : String) : Bool :=
  ct ≠ "" && (ct = "application/json" || ct.startsWith "application/json")

/-- The login-on-entry step of `Fetcher.Fetch` (fetch.go lines
280-285): authenticate when some credential is set and no auth method
is established. -/
def fetchPre (f : Fetcher) (logins : List LoginOutcome) :
    Except String (Fetcher × List LoginOutcome) :=
  if (f.Username ≠ "" ∨ f.Password ≠ "") ∧ f.authMethod = "" then
    match loginGo f logins with
    | (.error e, _) => .error ("authentication failed: " ++ e)
    | (.ok f', logins') => .ok (f', logins')
  else
    .ok (f, logins)

/-- `Fetcher.Fetch` against the scripted server.  Returns the fetch
outcome together with the number of poll requests issued (login-probe
requests are not counted).  On a redirect whose Location contains
`login.php` the session cookie and auth method are cleared, `login()`
is re-run, and on its success the whole of `Fetch` is re-entered
(`return f.Fetch()`), consuming the rest of the script. -/
def Fetch : Fetcher → List LoginOutcome → List PollResp → Except String ℕ × ℕ
  | f, logins, [] =>
    (match fetchPre f logins with
     | .error e => (.error e, 0)
     | .ok _ => (.error "Get: connection refused", 1))
  | f, logins, .transportErr e :: _ =>
    (match fetchPre f logins with
     | .error e' => (.error e', 0)
     | .ok _ => (.error e, 1))
  | f, logins, .resp status location contentType body :: rest =>
    (match fetchPre f logins with
     | .error e => (.error e, 0)
     | .ok (f', logins') =>
       if (status = 302 ∨ status = 301) ∧
           strContains location "login.php" = true then
         match loginGo { f' with sessionCookie := "", authMethod := "" }
             logins' with
         | (.error e, _) => (.error ("re-authentication failed: " ++ e), 1)
         | (.ok f3, logins3) =>
           ((Fetch f3 logins3 rest).1, 1 + (Fetch f3 logins3 rest).2)
       else if status ≠ 200 then
         (.error "HTTP request failed with non-OK status", 1)
       else if jsonContentType contentType = false then
         (.error ("expected JSON response, got content-type: " ++ contentType), 1)
       else
         match body with
         | .error e => (.error e, 1)
         | .ok ac => (.ok ac, 1))

/-! ## Geo utility, transcendental part (package geo)

`CalculateDistance` is haversine over float64; it is embedded over ℝ
(float inputs, being finitely representable, enter as rationals).  The
coordinate-validity predicates keep their Go shapes over ℚ. -/

/-- `geo.IsValidLatitude`. -/
def IsValidLatitude (lat : ℚ) : Bool :=
  decide (-90 ≤ lat) && decide (lat ≤ 90)

/-- `geo.IsValidLongitude`. -/
def IsValidLongitude (lon : ℚ) : Bool :=
  decide (-180 ≤ lon) && decide (lon ≤ 180)

/-- `geo.IsValidCoordinate`. -/
def IsValidCoordinate (lat lon : ℚ) : Bool :=
  IsValidLatitude lat && IsValidLongitude lon

open scoped Classical in
/-- Go's `math.Atan2 y x`. -/
noncomputable def atan2 (y x : ℝ) : ℝ :=
  if 0 < x then Real.arctan (y / x)
  else if x < 0 ∧ 0 ≤ y then Real.arctan (y / x) + Real.pi
  else if x < 0 ∧ y < 0 then Real.arctan (y / x) - Real.pi
  else if x = 0 ∧ 0 < y then Real.pi / 2
  else if x = 0 ∧ y < 0 then -(Real.pi / 2)
  else 0

/-- Degrees to radians: `deg * math.Pi / 180`. -/
noncomputable def deg2rad (deg : ℚ) : ℝ :=
  (deg : ℝ) * Real.pi / 180

/-- `geo.CalculateDistance`: the haversine formula with Earth radius
6371 km, exactly as in the source (`math.Pow(·, 2)` rendered `^ 2`). -/
noncomputable def CalculateDistance (lat1 lon1 lat2 lon2 : ℚ) : ℝ :=
  let la1 := deg2rad lat1
  let lo1 := deg2rad lon1
  let la2 := deg2rad lat2
  let lo2 := deg2rad lon2
  let dlat := la2 - la1
  let dlon := lo2 - lo1
  let a := Real.sin (dlat / 2) ^ 2 +
    Real.cos la1 * Real.cos la2 * Real.sin (dlon / 2) ^ 2
  let c := 2 * atan2 (Real.sqrt a) (Real.sqrt (1 - a))
  6371 * c

/-! ## Helper lemmas -/

theorem lookup_set_self (h : History) (id : String) (t : AircraftTracker) :
    (History.set h id t).lookup id = some t := by
  induction h with
  | nil => simp [History.set, History.lookup]
  | cons e rest ih =>
    obtain ⟨k, t0⟩ := e
    by_cases hk : k = id
    · simp [History.set, History.lookup, hk]
    · simp [History.set, History.lookup, hk, ih]

theorem lookup_mem {h : History} {id : String} {t : AircraftTracker}
    (hl : h.lookup id = some t) : (id, t) ∈ h := by
  induction h with
  | nil => simp [History.lookup] at hl
  | cons e rest ih =>
    obtain ⟨k, t0⟩ := e
    by_cases hk : k = id
    · subst hk
      simp [History.lookup] at hl
      simp [hl]
    · simp [History.lookup, hk] at hl
      exact List.mem_cons_of_mem _ (ih hl)

theorem allNotified_set {h : History} {id : String} {t : AircraftTracker}
    (hall : AllNotified h) (ht : t.Notified = true) :
    AllNotified (History.set h id t) := by
  induction h with
  | nil =>
    intro e he
    simp [History.set] at he
    simp [he, ht]
  | cons e0 rest ih =>
    obtain ⟨k, t0⟩ := e0
    have hall0 : AllNotified rest := fun e he => hall e (List.mem_cons_of_mem _ he)
    by_cases hk : k = id
    · intro e he
      simp [History.set, hk] at he
      rcases he with he | he
      · simp [he, ht]
      · exact hall e (List.mem_cons_of_mem _ he)
    · intro e he
      simp [History.set, hk] at he
      rcases he with he | he
      · exact hall e (by simp [he])
      · exact ih hall0 e he

theorem processAircraft_fst (cfg : NotificationConfig) (loc : LocationConfig)
    (distFn : ℚ → ℚ → ℚ → ℚ → ℚ) (ns : Aircraft → Bool) (hist : History)
    (now : ℤ) (ac : Aircraft) :
    (processAircraft cfg loc distFn ns hist now ac).1 =
      (shouldNotifyAircraft cfg hist (getAircraftIdentifier ac)
        (monitorCalculateDistance loc distFn ac.Lat ac.Long) now).2 := by
  simp only [processAircraft]
  split
  · split <;> rfl
  · rfl

theorem shouldNotify_allNotified (cfg : NotificationConfig) (hist : History)
    (id : String) (d : ℚ) (now : ℤ) (hall : AllNotified hist) :
    AllNotified (shouldNotifyAircraft cfg hist id d now).2 := by
  unfold shouldNotifyAircraft
  cases hl : hist.lookup id with
  | none => exact allNotified_set hall rfl
  | some t =>
    have ht : t.Notified = true := hall (id, t) (lookup_mem hl)
    by_cases hm : cfg.NotifyOnCloserOnly
    · by_cases hc : d < t.LastDistance ∨
          (0 < cfg.ReNotifyAfter ∧ cfg.ReNotifyAfter < now - t.LastSeen)
      · simp only [hm, if_true, hc]
        exact allNotified_set hall rfl
      · simp only [hm, if_true, hc, if_false]
        exact allNotified_set hall ht
    · simp only [hm, if_false]
      exact allNotified_set hall rfl

theorem normalizeBearing_eq (b : ℚ) :
    normalizeBearing b = b - 360 * ⌊b / 360⌋ := by
  have hle : (⌊b / 360⌋ : ℚ) ≤ b / 360 := Int.floor_le _
  have hlt : b / 360 < ⌊b / 360⌋ + 1 := Int.lt_floor_add_one _
  simp only [normalizeBearing, goFmod, goTrunc]
  by_cases hb : 0 ≤ b / 360
  · rw [if_pos hb]
    rw [if_neg (by linarith : ¬ (b - 360 * (⌊b / 360⌋ : ℚ) < 0))]
  · rw [if_neg hb]
    push_neg at hb
    have hnegfloor : -⌊-(b / 360)⌋ = ⌈b / 360⌉ := by
      rw [Int.floor_neg]; ring
    rw [hnegfloor]
    by_cases hc : (⌈b / 360⌉ : ℚ) = b / 360
    · have hfl : ⌊b / 360⌋ = ⌈b / 360⌉ := by
        conv_lhs => rw [← hc]
        rw [Int.floor_intCast]
      have hz : b - 360 * (⌈b / 360⌉ : ℚ) = 0 := by
        rw [hc]; ring
      rw [hz, if_neg (lt_irrefl 0), hfl, hc]
      ring
    · have h1 : ⌈b / 360⌉ ≤ ⌊b / 360⌋ + 1 := Int.ceil_le_floor_add_one _
      have h2 : ⌊b / 360⌋ < ⌈b / 360⌉ := by
        by_contra hno
        push_neg at hno
        have hxle : b / 360 ≤ (⌈b / 360⌉ : ℚ) := Int.le_ceil _
        have hcast : (⌈b / 360⌉ : ℚ) ≤ (⌊b / 360⌋ : ℚ) := by exact_mod_cast hno
        exact hc (le_antisymm (by linarith) hxle)
      have hceil : ⌈b / 360⌉ = ⌊b / 360⌋ + 1 := le_antisymm h1 (by omega)
      rw [hceil]
      push_cast
      rw [if_pos (by linarith : b - 360 * ((⌊b / 360⌋ : ℚ) + 1) < 0)]
      ring

theorem normalizeBearing_add_360 (b : ℚ) :
    normalizeBearing (b + 360) = normalizeBearing b := by
  rw [normalizeBearing_eq, normalizeBearing_eq,
    (by ring : (b + 360) / 360 = b / 360 + 1), Int.floor_add_one]
  push_cast
  ring

theorem bearingToDirection_mem (b : ℚ) :
    BearingToDirection b ∈ directionsList := by
  simp only [BearingToDirection]
  have h1 : 0 ≤ goRound (normalizeBearing b / (45 / 2)) % 16 :=
    Int.emod_nonneg _ (by norm_num)
  have h2 : goRound (normalizeBearing b / (45 / 2)) % 16 < 16 :=
    Int.emod_lt_of_pos _ (by norm_num)
  have hlen : (goRound (normalizeBearing b / (45 / 2)) % 16).toNat <
      directionsList.length := by
    simp only [directionsList, List.length]
    omega
  rw [List.getD_eq_getElem _ _ hlen]
  exact List.getElem_mem hlen

theorem fetch_redirect_retry (f : Fetcher) (logins : List LoginOutcome)
    (rest : List PollResp) (loc ct : String) (body : Except String ℕ)
    (m c : String) (hauth : f.authMethod ≠ "") (hu : f.Username ≠ "")
    (hp : f.Password ≠ "") (hloc : strContains loc "login.php" = true) :
    Fetch f (LoginOutcome.success m c :: logins)
        (PollResp.resp 302 loc ct body :: rest) =
      ((Fetch { f with sessionCookie := c, authMethod := m } logins rest).1,
        1 + (Fetch { f with sessionCookie := c, authMethod := m } logins rest).2) := by
  simp [Fetch, fetchPre, loginGo, hauth, hu, hp, hloc]

theorem fetch_redirect_relogin_failure (f : Fetcher) (logins : List LoginOutcome)
    (rest : List PollResp) (loc ct : String) (body : Except String ℕ)
    (hauth : f.authMethod ≠ "") (hu : f.Username ≠ "") (hp : f.Password ≠ "")
    (hloc : strContains loc "login.php" = true) :
    Fetch f (LoginOutcome.failure :: logins)
        (PollResp.resp 302 loc ct body :: rest) =
      (.error "re-authentication failed: all authentication methods failed", 1) := by
  simp [Fetch, fetchPre, loginGo, hauth, hu, hp, hloc]

theorem calculateDistance_self (lat lon : ℚ) :
    CalculateDistance lat lon lat lon = 0 := by
  simp only [CalculateDistance]
  norm_num [sub_self, Real.sin_zero, Real.sqrt_zero, Real.sqrt_one, atan2,
    Real.arctan_zero]

theorem calculateDistance_symm (lat1 lon1 lat2 lon2 : ℚ) :
    CalculateDistance lat1 lon1 lat2 lon2 =
      CalculateDistance lat2 lon2 lat1 lon1 := by
  have hsin : ∀ x y : ℝ,
      Real.sin ((x - y) / 2) ^ 2 = Real.sin ((y - x) / 2) ^ 2 := by
    intro x y
    rw [show (x - y) / 2 = -((y - x) / 2) by ring, Real.sin_neg]
    ring
  simp only [CalculateDistance]
  rw [hsin (deg2rad lat2) (deg2rad lat1), hsin (deg2rad lon2) (deg2rad lon1),
    mul_comm (Real.cos (deg2rad lat1)) (Real.cos (deg2rad lat2))]

/-! ## Claim theorems -/

/-- Counterexample to claim C1: a poll that hits a redirect-to-login
twice in a row, with re-authentication succeeding each time, does not
end in a terminal error — the code's `return f.Fetch()` retries again
and the third request succeeds (3 poll requests issued in one call).
The claim's "a second consecutive redirect-to-login within the same
poll is a terminal error" is false on the code. -/
theorem c1_counterexample :
    Fetch ⟨"", 0, 0, false, "", "", 0, 0, 0, "user", "pass", "", ""⟩
      [.success "session" "rauth=a", .success "session" "rauth=b",
       .success "session" "rauth=c"]
      [.resp 302 "/login.php?expired=1" "text/html" (.error "html body"),
       .resp 302 "/login.php?expired=1" "text/html" (.error "html body"),
       .resp 200 "" "application/json" (.ok 7)] = (.ok 7, 3) := rfl

/-- Claim C1 as amended: on a redirect whose Location contains a login
path the client clears its session cookie and auth method, re-runs
authentication, and retries the original request — but the retry is
*not* bounded to once: every further redirect-to-login triggers another
re-authentication and retry (n redirects with successful re-logins cost
n+1 poll requests and still succeed), and the recovery only ends in a
terminal error for the poll when the re-authentication itself fails. -/
theorem c1_amended :
    (∀ f logins rest loc ct body m c, f.authMethod ≠ "" → f.Username ≠ "" →
      f.Password ≠ "" → strContains loc "login.php" = true →
      Fetch f (LoginOutcome.success m c :: logins)
          (PollResp.resp 302 loc ct body :: rest) =
        ((Fetch { f with sessionCookie := c, authMethod := m } logins rest).1,
          1 + (Fetch { f with sessionCookie := c, authMethod := m } logins rest).2)) ∧
    (∀ f logins rest loc ct body, f.authMethod ≠ "" → f.Username ≠ "" →
      f.Password ≠ "" → strContains loc "login.php" = true →
      Fetch f (LoginOutcome.failure :: logins)
          (PollResp.resp 302 loc ct body :: rest) =
        (.error "re-authentication failed: all authentication methods failed", 1)) ∧
    (∀ n : ℕ,
      Fetch ⟨"", 0, 0, false, "", "", 0, 0, 0, "user", "pass", "c", "session"⟩
        (List.replicate n (LoginOutcome.success "session" "c"))
        (List.replicate n (PollResp.resp 302 "/login.php" "text/html"
            (Except.error "html")) ++
          [PollResp.resp 200 "" "application/json" (Except.ok 7)]) =
        (Except.ok 7, n + 1)) := by
  refine ⟨fetch_redirect_retry, fetch_redirect_relogin_failure, ?_⟩
  intro n
  induction n with
  | zero => rfl
  | succ k ih =>
    rw [List.replicate_succ, List.replicate_succ, List.cons_append,
      fetch_redirect_retry _ _ _ _ _ _ _ _ (by decide) (by decide) (by decide)
        (by decide)]
    have hupd : ∀ g : Fetcher, g = ⟨"", 0, 0, false, "", "", 0, 0, 0, "user",
        "pass", "c", "session"⟩ →
        ({ g with sessionCookie := "c", authMethod := "session" } : Fetcher) =
          ⟨"", 0, 0, false, "", "", 0, 0, 0, "user", "pass", "c", "session"⟩ := by
      rintro g rfl
      rfl
    rw [hupd _ rfl, ih]
    show ((Except.ok 7 : Except String ℕ), 1 + (k + 1)) = (Except.ok 7, k + 1 + 1)
    rw [Nat.add_comm]

/-- Witness for C1 (amended) at a concrete redirect script. -/
theorem c1_amended_witness :
    Fetch ⟨"", 0, 0, false, "", "", 0, 0, 0, "user", "pass", "c", "session"⟩
      [LoginOutcome.success "session" "d"]
      [PollResp.resp 302 "/login.php" "text/html" (Except.error "html"),
       PollResp.resp 200 "" "application/json" (Except.ok 9)] =
      ((Fetch ⟨"", 0, 0, false, "", "", 0, 0, 0, "user", "pass", "d", "session"⟩
          [] [PollResp.resp 200 "" "application/json" (Except.ok 9)]).1,
        1 + (Fetch ⟨"", 0, 0, false, "", "", 0, 0, 0, "user", "pass", "d",
          "session"⟩ [] [PollResp.resp 200 "" "application/json"
            (Except.ok 9)]).2) :=
  c1_amended.1 _ [] _ "/login.php" "text/html" (Except.error "html") "session"
    "d" (by decide) (by decide) (by decide) (by decide)

/-- Claim C10: `Fetch` attempts login whenever at least one credential
is non-empty and no auth method is established, and `login` rejects
unless both are non-empty — so with exactly one credential configured
every `Fetch` call fails with an authentication error having issued no
poll request. -/
theorem c10_single_credential (f : Fetcher) (logins : List LoginOutcome)
    (polls : List PollResp)
    (h : (f.Username = "" ∧ f.Password ≠ "") ∨ (f.Username ≠ "" ∧ f.Password = ""))
    (hm : f.authMethod = "") :
    Fetch f logins polls =
      (.error "authentication failed: username and password required for login",
        0) := by
  have hpre : fetchPre f logins =
      .error "authentication failed: username and password required for login" := by
    rcases h with ⟨h1, h2⟩ | ⟨h1, h2⟩ <;> simp [fetchPre, loginGo, h1, h2, hm]
  match polls with
  | [] => simp [Fetch, hpre]
  | .transportErr e :: rest => simp [Fetch, hpre]
  | .resp s l ct b :: rest => simp [Fetch, hpre]

/-- Witness for C10: username set, password empty. -/
theorem c10_single_credential_witness :
    Fetch ⟨"", 0, 0, false, "", "", 0, 0, 0, "user", "", "", ""⟩ []
      [PollResp.resp 200 "" "application/json" (Except.ok 7)] =
      (.error "authentication failed: username and password required for login",
        0) :=
  c10_single_credential _ [] _ (Or.inr ⟨by decide, rfl⟩) rfl

/-- Counterexample to claim C3: at exactly 11.25° (= 45/4, a boundary
between the N and NNE sectors, exactly representable in binary floating
point) `math.Round` rounds the half upward (away from zero), so the
code yields "NNE", not "N" as the claim states. -/
theorem c3_counterexample :
    BearingToDirection (45 / 4) = "NNE" ∧ BearingToDirection (45 / 4) ≠ "N" := by
  constructor
  · norm_num [BearingToDirection, normalizeBearing, goFmod, goTrunc, goRound,
      directionsList]
    try rfl
  · norm_num [BearingToDirection, normalizeBearing, goFmod, goTrunc, goRound,
      directionsList]
    try simp

/-- Claim C3 as amended: `BearingToDirection` normalizes any rational
input modulo 360 (it is 360-periodic, handling negative and >360
inputs) and maps it into the 16-label table by nearest-sector rounding
over 22.5° sectors with wraparound at 360→0 — with an exact
sector-boundary half such as 11.25° rounding *up* to the next label
("NNE"), not down to "N"; concretely 0 → "N", 359.9 → "N", 45 → "NE",
405 → "NE", -45 → "NW", 11.25 → "NNE". -/
theorem c3_amended :
    (∀ b : ℚ, BearingToDirection (b + 360) = BearingToDirection b) ∧
    (∀ b : ℚ, BearingToDirection b ∈ directionsList) ∧
    BearingToDirection 0 = "N" ∧
    BearingToDirection (3599 / 10) = "N" ∧
    BearingToDirection 45 = "NE" ∧
    BearingToDirection 405 = "NE" ∧
    BearingToDirection (-45) = "NW" ∧
    BearingToDirection (45 / 4) = "NNE" := by
  refine ⟨?_, bearingToDirection_mem, ?_, ?_, ?_, ?_, ?_, ?_⟩
  · intro b
    simp only [BearingToDirection, normalizeBearing_add_360]
  all_goals
    norm_num [BearingToDirection, normalizeBearing, goFmod, goTrunc, goRound,
      directionsList]
    try rfl

/-- Counterexample to claim C4: an observer at latitude 51, longitude
exactly 0 is a non-zero observer location in the claim's sense (not
both coordinates are 0.0), yet the code — whose guard is
`UserLat != 0.0 && UserLong != 0.0` — omits the `lat`/`lng` (and
`fDstU`) parameters entirely. -/
theorem c4_counterexample :
    ¬ ((⟨"", 0, 0, false, "", "", 51, 0, 100, "", "", "", ""⟩ : Fetcher).UserLat = 0 ∧
       (⟨"", 0, 0, false, "", "", 51, 0, 100, "", "", "", ""⟩ : Fetcher).UserLong = 0) ∧
    "lat" ∉ (buildQuery ⟨"", 0, 0, false, "", "", 51, 0, 100, "", "", "", ""⟩).map
      Prod.fst ∧
    "lng" ∉ (buildQuery ⟨"", 0, 0, false, "", "", 51, 0, 100, "", "", "", ""⟩).map
      Prod.fst ∧
    "fDstU" ∉ (buildQuery ⟨"", 0, 0, false, "", "", 51, 0, 100, "", "", "", ""⟩).map
      Prod.fst := by
  refine ⟨fun h => ?_, by decide, by decide, by decide⟩
  exact absurd h.1 (by decide)

set_option maxHeartbeats 1000000 in
/-- Claim C4 as amended: each filter parameter is sent exactly when its
value is non-default (non-empty string; positive altitude bound;
military flag true, as "1"); `lat`/`lng` are sent exactly when *both*
observer coordinates are non-zero (either coordinate exactly 0.0
suppresses the location filter), and `fDstU` additionally requires
`MaxDistance > 0`. -/
theorem c4_amended (f : Fetcher) :
    ("fTypQ" ∈ (buildQuery f).map Prod.fst ↔ f.AircraftType ≠ "") ∧
    ("fAltL" ∈ (buildQuery f).map Prod.fst ↔ 0 < f.MinAltitude) ∧
    ("fAltU" ∈ (buildQuery f).map Prod.fst ↔ 0 < f.MaxAltitude) ∧
    ("fMilQ" ∈ (buildQuery f).map Prod.fst ↔ f.Military = true) ∧
    (f.Military = true → ("fMilQ", QVal.s "1") ∈ buildQuery f) ∧
    ("fOpQ" ∈ (buildQuery f).map Prod.fst ↔ f.Operator ≠ "") ∧
    ("fCallQ" ∈ (buildQuery f).map Prod.fst ↔ f.FlightNumber ≠ "") ∧
    ("lat" ∈ (buildQuery f).map Prod.fst ↔ (f.UserLat ≠ 0 ∧ f.UserLong ≠ 0)) ∧
    ("lng" ∈ (buildQuery f).map Prod.fst ↔ (f.UserLat ≠ 0 ∧ f.UserLong ≠ 0)) ∧
    ("fDstU" ∈ (buildQuery f).map Prod.fst ↔
      ((f.UserLat ≠ 0 ∧ f.UserLong ≠ 0) ∧ 0 < f.MaxDistance)) := by
  simp only [buildQuery, List.map_append, List.mem_append]
  split_ifs <;> simp_all

/-- Witness for C4 (amended): a fetcher with the military flag set
sends `fMilQ=1`. -/
theorem c4_amended_witness :
    ("fMilQ", QVal.s "1") ∈
      buildQuery ⟨"", 0, 0, true, "", "", 0, 0, 0, "", "", "", ""⟩ :=
  (c4_amended ⟨"", 0, 0, true, "", "", 0, 0, 0, "", "", "", ""⟩).2.2.2.2.1 rfl

/-- Claim C5: the squawk field decodes from both JSON string and JSON
number shapes, normalizing to an integer; `"7500"` and `7500` decode to
7500, `""` decodes to 0, and a non-numeric string such as `"invalid"`
is a decode error. -/
theorem c5_sqk_decode :
    sqkUnmarshalJSON (.jstr "7500") = .ok 7500 ∧
    sqkUnmarshalJSON (.jint 7500) = .ok 7500 ∧
    sqkUnmarshalJSON (.jstr "") = .ok 0 ∧
    (∀ n : ℤ, sqkUnmarshalJSON (.jint n) = .ok n) ∧
    (sqkUnmarshalJSON (.jstr "invalid")).toOption = none :=
  ⟨rfl, rfl, rfl, fun _ => rfl, rfl⟩

/-- Claim C2: for every observation: no tracker → create one and
notify regardless of mode; existing tracker → `LastDistance` and
`LastSeen` are updated unconditionally, and the decision is
`closer ∨ dueForRenotify` when "notify on closer only" is active and
always-notify otherwise. -/
theorem c2_shouldNotify_decision (cfg : NotificationConfig) (hist : History)
    (id : String) (d : ℚ) (now : ℤ) :
    (hist.lookup id = none →
      shouldNotifyAircraft cfg hist id d now =
        (true, hist.set id ⟨d, now, true⟩)) ∧
    (∀ t, hist.lookup id = some t →
      ((shouldNotifyAircraft cfg hist id d now).2.lookup id).map
          AircraftTracker.LastDistance = some d ∧
      ((shouldNotifyAircraft cfg hist id d now).2.lookup id).map
          AircraftTracker.LastSeen = some now ∧
      ((shouldNotifyAircraft cfg hist id d now).1 = true ↔
        (cfg.NotifyOnCloserOnly = true →
          (d < t.LastDistance ∨
            (0 < cfg.ReNotifyAfter ∧ cfg.ReNotifyAfter < now - t.LastSeen))))) := by
  constructor
  · intro hl
    simp [shouldNotifyAircraft, hl]
  · intro t ht
    simp only [shouldNotifyAircraft, ht]
    by_cases hm : cfg.NotifyOnCloserOnly
    · by_cases hc : d < t.LastDistance ∨
          (0 < cfg.ReNotifyAfter ∧ cfg.ReNotifyAfter < now - t.LastSeen)
      · simp [hm, hc, lookup_set_self]
      · simp [hm, hc, lookup_set_self]
    · simp [hm, lookup_set_self]

/-- Witness for C2 at a concrete first sighting. -/
theorem c2_shouldNotify_decision_witness :
    shouldNotifyAircraft ⟨true, true, 0⟩ [] "A" 1 0 =
      (true, [("A", ⟨1, 0, true⟩)]) :=
  (c2_shouldNotify_decision ⟨true, true, 0⟩ [] "A" 1 0).1 rfl

/-- Claim C6: a cleanup sweep removes exactly the trackers whose
`LastSeen` is older than 15 minutes before "now" (a tracker seen 20
minutes ago goes, one seen 1 minute ago stays), and it returns only a
history map — no notification is produced. -/
theorem c6_cleanup_staleness (hist : History) (now : ℤ) :
    (∀ e, e ∈ cleanupAircraftHistory hist now ↔
      e ∈ hist ∧ ¬ ((Prod.snd e).LastSeen < now - 15 * 60)) ∧
    cleanupAircraftHistory
      [("old", ⟨3, now - 20 * 60, true⟩), ("recent", ⟨5, now - 60, true⟩)] now =
      [("recent", ⟨5, now - 60, true⟩)] := by
  constructor
  · intro e
    simp [cleanupAircraftHistory, List.mem_filter]
  · have h1 : now - 20 * 60 < now - 15 * 60 := by omega
    have h2 : ¬ (now - 60 < now - 15 * 60) := by omega
    simp [cleanupAircraftHistory, List.filter_cons, h1, h2]

/-- Claim C7: a per-aircraft error (e.g. Notifier failure) does not
abort the rest of the batch — the history update is the same fold over
all aircraft whatever the notifier does, and in a concrete batch where
the notifier fails on the first aircraft the second one still gets its
tracker — while a fetch failure aborts the cycle with the history
untouched. -/
theorem c7_failure_isolation :
    (∀ cfg loc distFn ns hist now e,
      fetchAndProcess cfg loc distFn ns (.error e) hist now =
        (hist, some ("failed to fetch aircraft data: " ++ e))) ∧
    (∀ cfg loc distFn hist now acs, ∀ ns₁ ns₂ : Aircraft → Bool,
      (fetchAndProcess cfg loc distFn ns₁ (.ok acs) hist now).1 =
        (fetchAndProcess cfg loc distFn ns₂ (.ok acs) hist now).1) ∧
    (((fetchAndProcess ⟨true, false, 0⟩ ⟨0, 0, 0⟩ (fun _ _ _ _ => 0)
        (fun ac => ac.Icao != "AAA")
        (.ok [⟨"AAA", "CALLA", "A320", 10000, 400, 51, 1, false⟩,
              ⟨"BBB", "CALLB", "B744", 20000, 430, 52, 1, false⟩])
        [] 0).1.lookup "BBB").isSome = true) ∧
    ((processAircraft ⟨true, false, 0⟩ ⟨0, 0, 0⟩ (fun _ _ _ _ => 0)
        (fun ac => ac.Icao != "AAA") [] 0
        ⟨"AAA", "CALLA", "A320", 10000, 400, 51, 1, false⟩).2.isSome = true) := by
  refine ⟨fun _ _ _ _ _ _ _ => rfl, ?_, by decide, by decide⟩
  intro cfg loc distFn hist now acs ns₁ ns₂
  simp only [fetchAndProcess, processAircraft_fst]

/-- Claim C8: for all valid coordinate pairs the haversine distance
satisfies `distance(p,p) = 0` and `distance(a,b) = distance(b,a)`. -/
theorem c8_distance_metric (lat1 lon1 lat2 lon2 : ℚ)
    (h1 : IsValidCoordinate lat1 lon1 = true)
    (h2 : IsValidCoordinate lat2 lon2 = true) :
    CalculateDistance lat1 lon1 lat1 lon1 = 0 ∧
    CalculateDistance lat1 lon1 lat2 lon2 =
      CalculateDistance lat2 lon2 lat1 lon1 :=
  ⟨calculateDistance_self lat1 lon1,
    calculateDistance_symm lat1 lon1 lat2 lon2⟩

/-- Witness for C8 at London-ish and Paris-ish coordinates. -/
theorem c8_distance_metric_witness :
    IsValidCoordinate 51 0 = true ∧ IsValidCoordinate 48 2 = true ∧
    (CalculateDistance 51 0 51 0 = 0 ∧
      CalculateDistance 51 0 48 2 = CalculateDistance 48 2 51 0) :=
  ⟨by decide, by decide, c8_distance_metric 51 0 48 2 (by decide) (by decide)⟩

/-- Claim C9: every tracker in the history map has `Notified = true` —
created true on first sighting, preserved by every decision branch and
by cleanup — and the tracker creation/update is independent of the
global notification-enabled flag and of the notifier outcome. -/
theorem c9_notified_invariant :
    (∀ cfg hist id d now, AllNotified hist →
      AllNotified (shouldNotifyAircraft cfg hist id d now).2) ∧
    (∀ hist now, AllNotified hist →
      AllNotified (cleanupAircraftHistory hist now)) ∧
    (∀ cfg loc distFn ns hist now ac,
      (processAircraft cfg loc distFn ns hist now ac).1 =
        (shouldNotifyAircraft cfg hist (getAircraftIdentifier ac)
          (monitorCalculateDistance loc distFn ac.Lat ac.Long) now).2) ∧
    (∀ enabled₁ enabled₂ closer renotify loc distFn hist now ac,
      ∀ ns₁ ns₂ : Aircraft → Bool,
      (processAircraft ⟨enabled₁, closer, renotify⟩ loc distFn ns₁ hist now ac).1 =
        (processAircraft ⟨enabled₂, closer, renotify⟩ loc distFn ns₂ hist now ac).1) ∧
    (∀ cfg hist id d now, hist.lookup id = none →
      (shouldNotifyAircraft cfg hist id d now).2.lookup id =
        some ⟨d, now, true⟩) := by
  refine ⟨fun cfg hist id d now hall => shouldNotify_allNotified cfg hist id d now hall,
    ?_, fun cfg loc distFn ns hist now ac => processAircraft_fst cfg loc distFn ns hist now ac,
    ?_, ?_⟩
  · intro hist now hall e he
    simp only [cleanupAircraftHistory, List.mem_filter] at he
    exact hall e he.1
  · intro enabled₁ enabled₂ closer renotify loc distFn hist now ac ns₁ ns₂
    rw [processAircraft_fst, processAircraft_fst]
    rfl
  · intro cfg hist id d now hl
    simp [shouldNotifyAircraft, hl, lookup_set_self]

/-- Witness for C9 at a concrete history and observation. -/
theorem c9_notified_invariant_witness :
    AllNotified (shouldNotifyAircraft ⟨true, true, 0⟩
      [("B", ⟨2, 0, true⟩)] "A" 1 5).2 :=
  c9_notified_invariant.1 ⟨true, true, 0⟩ [("B", ⟨2, 0, true⟩)] "A" 1 5
    (by decide)

end Godar
